import Mathlib

set_option linter.unusedVariables false

/-!
Shallow embedding of the gemini-agents repository (src/main.go, which holds two
iterations of the program: an earlier single-file version and a later one that
splits agent plumbing into a helper package).  The external Gemini SDK is
modelled at its interface boundary: a chat session's `SendMessage` is a stream
of replies indexed by turn number, a reply being either a transport error or a
response value; HTTP transport for the remote agent tool is an oracle from the
performed POST to its outcome.  `log.Fatalln` (process exit) and runtime panics
are modelled as explicit terminal outcomes so they can be distinguished from
ordinary error returns.
-/

/-- A Go `any` value stored in a tool call's argument map: the code only ever
type-asserts these to `string`; a non-string value makes the assertion panic. -/
inductive GoVal
  | str (s : String)
  | other
deriving DecidableEq, Repr

/-- One content part of a model reply (`genai.Part`): the code inspects whether
it is a function call or text; every other part kind is left unhandled. -/
inductive GPart
  | functionCall (name : String) (args : List (String × GoVal))
  | text (s : String)
  | other
deriving DecidableEq, Repr

/-- `genai.Content`: the list of parts of one candidate reply. -/
structure Content where
  parts : List GPart
deriving DecidableEq, Repr

/-- One candidate of a model reply. -/
structure Candidate where
  content : Content
deriving DecidableEq, Repr

/-- A model reply (`genai.GenerateContentResponse`): a list of candidates. -/
structure GenResp where
  candidates : List Candidate
deriving DecidableEq, Repr

/-- A tool invocation request (`genai.FunctionCall`): name plus argument map,
modelled as an association list. -/
structure FunctionCall where
  name : String
  args : List (String × GoVal)
deriving DecidableEq, Repr

/-- Result of one `session.SendMessage` call: a transport error or a reply. -/
abbrev GWReply := Except String GenResp

/-- Outcome of a call that in Go returns `(string, error)` but can also kill
the process: `ok`/`err` are the ordinary returns, `fatal` models
`log.Fatalln` (process exit), `panicked` models a runtime panic. -/
inductive Outcome
  | ok (s : String)
  | err (e : String)
  | fatal (m : String)
  | panicked
deriving DecidableEq, Repr

/-- Observable statistics of one `callAgent` run: its outcome, the number of
Model Gateway turns performed (`SendMessage` calls), the number of reply
inspections (loop iterations that read `resp.Candidates[0].Content.Parts[0]`),
and the number of tool-handler invocations. -/
structure RunStats where
  outcome : Outcome
  turns : Nat
  inspections : Nat
  toolCalls : Nat
deriving DecidableEq, Repr

/-- The unguarded `resp.Candidates[0].Content.Parts[0]` indexing: `none`
models the index-out-of-range panic when either list is empty. -/
def firstPart (resp : GenResp) : Option GPart :=
  match resp.candidates with
  | [] => none
  | c :: _ =>
    match c.content.parts with
    | [] => none
    | p :: _ => some p

/-- Go map lookup `funcall.Args[key]` on the association-list model. -/
def lookupArg (args : List (String × GoVal)) (key : String) : Option GoVal :=
  match args with
  | [] => none
  | (k, v) :: rest => if k = key then some v else lookupArg rest key

/-- A tool declaration advertised to the model (`genai.FunctionDeclaration`);
the prose description strings are model-facing documentation and omitted. -/
structure FunctionDeclaration where
  name : String
  required : List String
deriving DecidableEq, Repr

/-- A tool (`genai.Tool`): a list of function declarations. -/
structure Tool where
  functionDeclarations : List FunctionDeclaration
deriving DecidableEq, Repr

/-- `performCalculationTool`: declaration of the calculator tool. -/
def performCalculationTool : Tool :=
  ⟨[⟨"performCalculation", ["valueOne", "valueTwo", "operator"]⟩]⟩

/-- `callFloatAgentTool`: declaration of the remote float-agent tool. -/
def callFloatAgentTool : Tool :=
  ⟨[⟨"callFloatAgent", ["message"]⟩]⟩

/-- `Tool.FunctionDeclarations[0].Name` as read by the dispatch handlers. -/
def firstDeclName (t : Tool) : String :=
  (t.functionDeclarations.headD ⟨"", []⟩).name

/-- Numeric value of a list of decimal digit characters. -/
def digitsVal (ds : List Char) : Nat :=
  ds.foldl (fun a c => a * 10 + (c.toNat - 48)) 0

/-- Model of `strconv.ParseFloat(s, 64)` with its error ignored, as in the
source (`one, _ := strconv.ParseFloat(...)`): float64 values are modelled as
rationals; a simple sign/integer/fraction decimal grammar is parsed and any
string without digits yields the zero value that the ignored-error path
leaves behind.  Binary rounding, exponents and special values of the real
parser are outside the model (no proved claim depends on them). -/
def parseFloat (s : String) : ℚ :=
  let signed : ℚ × List Char :=
    match s.toList with
    | '-' :: t => (-1, t)
    | '+' :: t => (1, t)
    | t => (1, t)
  let intPart := signed.2.takeWhile Char.isDigit
  let rest := signed.2.dropWhile Char.isDigit
  let frac :=
    match rest with
    | '.' :: t => t.takeWhile Char.isDigit
    | _ => []
  if intPart = [] ∧ frac = [] then 0
  else
    signed.1 * ((digitsVal intPart : ℚ) + (digitsVal frac : ℚ) / (10 : ℚ) ^ frac.length)

/-- Truncation toward zero, as used by Go `math.Mod`. -/
def qtrunc (q : ℚ) : ℤ :=
  if 0 ≤ q.num then ((q.num.toNat / q.den : Nat) : ℤ)
  else -(((-q.num).toNat / q.den : Nat) : ℤ)

/-- Model of Go `math.Mod(x, y)`: the remainder `x - Trunc(x/y)*y`, taking the
sign of `x` (IEEE special cases such as `y = 0` are outside the model). -/
def qmod (x y : ℚ) : ℚ :=
  x - (qtrunc (x / y) : ℚ) * y

/-- Model of `strconv.FormatFloat(x, 'f', -1, 64)`: integral values print as
plain integers, exactly as the real formatter does for them; the development
relies on it only at integral values, so non-integral rationals are given a
placeholder `num/den` rendering. -/
def formatFloat (q : ℚ) : String :=
  if q.den = 1 then
    (if q.num < 0 then "-" ++ toString q.num.natAbs else toString q.num.natAbs)
  else
    toString q.num ++ "/" ++ toString q.den

/-- `performCalculation`: parse the two operands (parse errors ignored), apply
the operator via a switch whose default case only logs, leaving `result` at
its zero value, then format the result.  Logging side effects are dropped. -/
def performCalculation (valueOne : String) (valueTwo : String) (operator : String) : String :=
  let one := parseFloat valueOne
  let two := parseFloat valueTwo
  let result : ℚ :=
    if operator = "+" then one + two
    else if operator = "-" then one - two
    else if operator = "*" then one * two
    else if operator = "/" then one / two
    else if operator = "%" then qmod one two
    else 0
  formatFloat result

/-- `callFloatTool`: the float agent's dispatch handler.  An unmatched name
returns the error `unhandled function name: <name>`; a missing required
argument hits `log.Fatalln` (process exit, modelled as `fatal`); the `any`
values are type-asserted to `string` (`panicked` on a non-string value). -/
def callFloatTool (funcall : FunctionCall) : Outcome :=
  if funcall.name = firstDeclName performCalculationTool then
    match lookupArg funcall.args "valueOne" with
    | none => .fatal "Missing value one"
    | some valueOne =>
      match lookupArg funcall.args "valueTwo" with
      | none => .fatal "Missing value two"
      | some valueTwo =>
        match lookupArg funcall.args "operator" with
        | none => .fatal "Missing value operator"
        | some operator =>
          match valueOne, valueTwo, operator with
          | .str s1, .str s2, .str sop => .ok (performCalculation s1 s2 sop)
          | _, _, _ => .panicked
  else
    .err ("unhandled function name: " ++ funcall.name)

/-- Wire request `{"input": string}`. -/
structure Request where
  input : String
deriving DecidableEq, Repr

/-- Wire response `{"content": string}`. -/
structure Response where
  content : String
deriving DecidableEq, Repr

/-- One HTTP POST performed by a remote-agent client tool: the URL it was
built with, the Content-Type header it set, and the serialized payload. -/
structure PostCall where
  url : String
  contentType : String
  payload : Request
deriving DecidableEq, Repr

/-- Outcome of one POST, at the client's interface: a transport failure
(`client.Do` or body read error), or a reply body together with the result of
`json.Unmarshal` on it. -/
inductive TransportResult
  | transportErr (e : String)
  | reply (decoded : Except String Response)

/-- `callFloatAgent` (later iteration): resolve the endpoint from the
environment (`log.Fatalln` when unset), build the Wire Request `{input:
message}`, POST it with Content-Type `application/json` to
`http://<host>:<port>/agent`, and return the decoded reply's `content`;
any transport or decode error is returned as the tool failure.  The second
component records the POSTs performed, in order.  `json.Marshal` of a
one-string-field struct and `http.NewRequest` on this URL shape cannot fail
and their dead error branches are not modelled. -/
def callFloatAgent (env : String → Option String) (transport : PostCall → TransportResult)
    (message : String) : Outcome × List PostCall :=
  match env "FLOAT_AGENT_HOSTNAME" with
  | none => (.fatal "environment variable FLOAT_AGENT_HOSTNAME not set", [])
  | some floatHostname =>
    match env "FLOAT_AGENT_PORT" with
    | none => (.fatal "environment variable FLOAT_AGENT_PORT not set", [])
    | some floatPort =>
      let call : PostCall :=
        ⟨"http://" ++ floatHostname ++ ":" ++ floatPort ++ "/agent", "application/json",
          ⟨message⟩⟩
      match transport call with
      | .transportErr e => (.err e, [call])
      | .reply (.error e) => (.err e, [call])
      | .reply (.ok response) => (.ok response.content, [call])

/-- `floatAgentTool` (earlier iteration): identical to `callFloatAgent`
except that the URL is `http://<host>:<port>` with no `/agent` path. -/
def floatAgentTool (env : String → Option String) (transport : PostCall → TransportResult)
    (message : String) : Outcome × List PostCall :=
  match env "FLOAT_AGENT_HOSTNAME" with
  | none => (.fatal "environment variable FLOAT_AGENT_HOSTNAME not set", [])
  | some floatHostname =>
    match env "FLOAT_AGENT_PORT" with
    | none => (.fatal "environment variable FLOAT_AGENT_PORT not set", [])
    | some floatPort =>
      let call : PostCall :=
        ⟨"http://" ++ floatHostname ++ ":" ++ floatPort, "application/json", ⟨message⟩⟩
      match transport call with
      | .transportErr e => (.err e, [call])
      | .reply (.error e) => (.err e, [call])
      | .reply (.ok response) => (.ok response.content, [call])

/-- `callMathTool`: the math agent's dispatch handler.  An unmatched name
returns `unhandled function name: <name>`; a missing `message` argument
returns the error `error missing message` (an ordinary error, unlike the
float handler's fatal exit); otherwise the remote float-agent tool is called
and its result or error passed through. -/
def callMathTool (env : String → Option String) (transport : PostCall → TransportResult)
    (funcall : FunctionCall) : Outcome :=
  if funcall.name = firstDeclName callFloatAgentTool then
    match lookupArg funcall.args "message" with
    | none => .err "error missing message"
    | some message =>
      match message with
      | .str s => (callFloatAgent env transport s).1
      | .other => .panicked
  else
    .err ("unhandled function name: " ++ funcall.name)

/-- The body of `callAgent`'s `for idx := 0; idx < 25; idx++` loop, with the
remaining iteration budget as fuel.  `gw` is the Model Gateway reply stream:
`gw k` is the reply to the `k`-th `SendMessage` of this call; `k` is the index
of the next send.  Each iteration reads `resp.Candidates[0].Content.Parts[0]`
(panic when empty); a function-call part is dispatched through the handler
(handler failure aborts the call) and the result sent back as a
`FunctionResponse`; a text part returns the answer; any other part kind
matches neither type assertion and the iteration does nothing.  The returned
statistics count the turns, inspections and tool invocations performed from
this point on. -/
def callAgentLoop (toolCall : FunctionCall → Outcome) (gw : Nat → GWReply)
    (resp : GenResp) (k : Nat) (fuel : Nat) : RunStats :=
  match fuel with
  | 0 => ⟨.err "message cycles exceeded", 0, 0, 0⟩
  | fuel' + 1 =>
    match firstPart resp with
    | none => ⟨.panicked, 0, 1, 0⟩
    | some (GPart.functionCall name args) =>
      match toolCall ⟨name, args⟩ with
      | .ok result =>
        match gw k with
        | .error e => ⟨.err e, 1, 1, 1⟩
        | .ok respNext =>
          let s := callAgentLoop toolCall gw respNext (k + 1) fuel'
          ⟨s.outcome, s.turns + 1, s.inspections + 1, s.toolCalls + 1⟩
      | .err e => ⟨.err e, 0, 1, 1⟩
      | .fatal m => ⟨.fatal m, 0, 1, 1⟩
      | .panicked => ⟨.panicked, 0, 1, 1⟩
    | some (GPart.text s) => ⟨.ok s, 0, 1, 0⟩
    | some GPart.other =>
      let s := callAgentLoop toolCall gw resp k fuel'
      ⟨s.outcome, s.turns, s.inspections + 1, s.toolCalls⟩

/-- `callAgent`: send the initial message (reply `gw 0`), then run the
dispatch loop with a budget of 25 cycles; falling out of the loop returns the
error `message cycles exceeded`.  The `message` argument is carried by the
initial send, whose reply the stream model provides as `gw 0`. -/
def callAgent (toolCall : FunctionCall → Outcome) (gw : Nat → GWReply)
    (message : String) : RunStats :=
  match gw 0 with
  | .error e => ⟨.err e, 1, 0, 0⟩
  | .ok resp =>
    let s := callAgentLoop toolCall gw resp 1 25
    ⟨s.outcome, s.turns + 1, s.inspections, s.toolCalls⟩

/-- An inbound HTTP request as `handleAgentRequest` observes it: the method,
the `Content-Type` header (`""` when absent, as `Header.Get` returns), and
the result of `json.NewDecoder(req.Body).Decode` on the body, modelled at the
decoder's interface. -/
structure HttpRequest where
  method : String
  contentType : String
  body : Except String Request
deriving Repr

/-- The body written by the handler: plain text (`http.Error`) or the JSON
encoding of a Wire Response. -/
inductive BodyContent
  | text (s : String)
  | json (r : Response)
deriving DecidableEq, Repr

/-- What the endpoint produces for one request: an HTTP response (status,
the Content-Type header the handler itself set, body), or no response at all
because the process died (`log.Fatalln` inside a tool) or the handler
panicked. -/
inductive HandlerResult
  | response (status : Nat) (contentType : Option String) (body : BodyContent)
  | crashedFatal (m : String)
  | crashedPanic
deriving DecidableEq, Repr

/-- `handleAgentRequest`: reject non-POST methods, then missing or
non-`application/json` Content-Type, then an undecodable body, each with the
same generic `400 Bad Request`; run `callAgent` on the decoded input, mapping
a loop error to the same generic `400`; on success set
`Content-Type: application/json` and reply `200` with `{content: result}`. -/
def handleAgentRequest (toolCall : FunctionCall → Outcome) (gw : Nat → GWReply)
    (req : HttpRequest) : HandlerResult :=
  if req.method ≠ "POST" then .response 400 none (.text "Bad Request")
  else if req.contentType = "" ∨ req.contentType ≠ "application/json" then
    .response 400 none (.text "Bad Request")
  else
    match req.body with
    | .error _ => .response 400 none (.text "Bad Request")
    | .ok reqBody =>
      match (callAgent toolCall gw reqBody.input).outcome with
      | .err _ => .response 400 none (.text "Bad Request")
      | .fatal m => .crashedFatal m
      | .panicked => .crashedPanic
      | .ok result => .response 200 (some "application/json") (.json ⟨result⟩)

/-- Opaque identity of a `genai.GenerativeModel` handle. -/
structure GenerativeModel where
  id : Nat
deriving DecidableEq, Repr

/-- A chat session records which model's `StartChat` created it. -/
structure ChatSession where
  model : GenerativeModel
deriving DecidableEq, Repr

/-- `model.StartChat()`. -/
def startChat (m : GenerativeModel) : ChatSession := ⟨m⟩

/-- The fields of the `agent` struct that `newSession` touches; the remaining
fields (context, client, system prompt, tool set, dispatch function) are
opaque SDK handles and configuration it never reads. -/
structure Agent where
  model : GenerativeModel
  session : Option ChatSession
deriving DecidableEq, Repr

/-- `newSession`: the receiver's session is started from the package-global
`agentFloat`'s model (`agent.session = agentFloat.model.StartChat()`), passed
here explicitly as the first argument. -/
def newSession (agentFloat : Agent) (agent : Agent) : Agent :=
  { agent with session := some (startChat agentFloat.model) }

/-- A response is benign for the loop when its first part exists, is not
text, and any function call it makes is one the dispatch handler answers
successfully. -/
def GoodResp (toolCall : FunctionCall → Outcome) (r : GenResp) : Prop :=
  ∃ p, firstPart r = some p ∧ (∀ s, p ≠ GPart.text s) ∧
    (∀ n a, p = GPart.functionCall n a → ∃ s, toolCall ⟨n, a⟩ = Outcome.ok s)

/-- A gateway reply is benign when it is a successful, benign response. -/
def GoodReply (toolCall : FunctionCall → Outcome) (reply : GWReply) : Prop :=
  ∃ r, reply = Except.ok r ∧ GoodResp toolCall r

/-- A reply whose sole part is of an unhandled kind (neither function call
nor text). -/
def respOther : GenResp := ⟨[⟨⟨[GPart.other]⟩⟩]⟩

/-- A gateway that always replies with the unhandled-kind part. -/
def gwOther : Nat → GWReply := fun _ => Except.ok respOther

/-- A reply requesting the undeclared tool `badTool`. -/
def respBadTool : GenResp := ⟨[⟨⟨[GPart.functionCall "badTool" []]⟩⟩]⟩

/-- A gateway that always requests the undeclared tool. -/
def gwBadTool : Nat → GWReply := fun _ => Except.ok respBadTool

/-- A reply that is the terminal text `2`. -/
def respText : GenResp := ⟨[⟨⟨[GPart.text "2"]⟩⟩]⟩

/-- A gateway that always answers with terminal text. -/
def gwText : Nat → GWReply := fun _ => Except.ok respText

/-- A reply with an empty candidate list. -/
def respEmpty : GenResp := ⟨[]⟩

/-- A gateway whose first reply has no candidates. -/
def gwEmpty : Nat → GWReply := fun _ => Except.ok respEmpty

/-- An environment with the float agent's endpoint configured. -/
def envLH : String → Option String := fun k =>
  if k = "FLOAT_AGENT_HOSTNAME" then some "localhost"
  else if k = "FLOAT_AGENT_PORT" then some "8080"
  else none

/-- A transport whose every reply decodes to the Wire Response `{content: "42"}`. -/
def trOk : PostCall → TransportResult := fun _ => .reply (.ok ⟨"42"⟩)

/-- Whether an outcome is an ordinary error return (as opposed to a success,
a fatal process exit, or a panic). -/
def isErrReturn : Outcome → Bool
  | .err _ => true
  | _ => false

/-- A well-formed POST to the endpoint. -/
def reqPost : HttpRequest := ⟨"POST", "application/json", Except.ok ⟨"1+1"⟩⟩

/-- A GET request to the endpoint. -/
def reqGet : HttpRequest := ⟨"GET", "application/json", Except.ok ⟨"1+1"⟩⟩

/-- An agent bound to model 0. -/
def agentA : Agent := ⟨⟨0⟩, none⟩

/-- An agent bound to model 1. -/
def agentB : Agent := ⟨⟨1⟩, none⟩

/-- The POST `callFloatAgent` builds: the remote endpoint's `/agent` path,
JSON content type, and the Wire Request `{input: message}`. -/
def wirePost (host port message : String) : PostCall :=
  ⟨"http://" ++ host ++ ":" ++ port ++ "/agent", "application/json", ⟨message⟩⟩

/-- The POST `floatAgentTool` builds: the remote endpoint's root, with no
`/agent` path. -/
def wirePostRoot (host port message : String) : PostCall :=
  ⟨"http://" ++ host ++ ":" ++ port, "application/json", ⟨message⟩⟩

/-! Helper lemmas about the dispatch loop. -/

/-- The loop performs at most `fuel` reply inspections. -/
theorem callAgentLoop_inspections_le (toolCall : FunctionCall → Outcome) (gw : Nat → GWReply) :
    ∀ fuel resp k, (callAgentLoop toolCall gw resp k fuel).inspections ≤ fuel := by
  intro fuel
  induction fuel with
  | zero => intro resp k; simp [callAgentLoop]
  | succ n ih =>
    intro resp k
    cases hp : firstPart resp with
    | none => simp [callAgentLoop, hp]
    | some p =>
      cases p with
      | text s => simp [callAgentLoop, hp]
      | functionCall nm a =>
        cases htc : toolCall ⟨nm, a⟩ with
        | ok s =>
          cases hgw : gw k with
          | error e => simp [callAgentLoop, hp, htc, hgw]
          | ok r =>
            have := ih r (k + 1)
            simp [callAgentLoop, hp, htc, hgw]
            omega
        | err e => simp [callAgentLoop, hp, htc]
        | fatal m => simp [callAgentLoop, hp, htc]
        | panicked => simp [callAgentLoop, hp, htc]
      | other =>
        have := ih resp k
        simp [callAgentLoop, hp]
        omega

/-- When the reply's indexing panics, the loop ends immediately in a panic. -/
theorem callAgentLoop_panics (toolCall : FunctionCall → Outcome) (gw : Nat → GWReply)
    (resp : GenResp) (k fuel : Nat) (hf : fuel ≠ 0) (h : firstPart resp = none) :
    callAgentLoop toolCall gw resp k fuel = ⟨Outcome.panicked, 0, 1, 0⟩ := by
  cases fuel with
  | zero => exact absurd rfl hf
  | succ n => simp [callAgentLoop, h]

/-- On a stream of benign non-text replies the loop consumes its whole budget
and falls out with the cycle-limit error. -/
theorem callAgentLoop_exhausts (toolCall : FunctionCall → Outcome) (gw : Nat → GWReply)
    (hgw : ∀ n, GoodReply toolCall (gw n)) :
    ∀ fuel resp k, GoodResp toolCall resp →
      (callAgentLoop toolCall gw resp k fuel).outcome = Outcome.err "message cycles exceeded" := by
  intro fuel
  induction fuel with
  | zero => intro resp k _; simp [callAgentLoop]
  | succ n ih =>
    intro resp k hg
    obtain ⟨p, hp, hnt, hfc⟩ := hg
    cases p with
    | text s => exact absurd rfl (hnt s)
    | functionCall nm a =>
      obtain ⟨s, hs⟩ := hfc nm a rfl
      obtain ⟨r, hr, hgr⟩ := hgw k
      simp [callAgentLoop, hp, hs, hr, ih r (k + 1) hgr]
    | other =>
      have hg2 : GoodResp toolCall resp := ⟨GPart.other, hp, hnt, hfc⟩
      simp [callAgentLoop, hp, ih resp k hg2]

/-! Claim theorems. -/

/-- C1, counterexample to the claim as stated: on a gateway whose sole reply
requests the undeclared tool `badTool`, no inspected reply is terminal text
(the only inspected reply is a function-call part), yet `callAgent` with the
float agent's dispatch handler returns the protocol error
`unhandled function name: badTool`, not the cycle-limit error
`message cycles exceeded`. -/
theorem c1_counterexample :
    firstPart respBadTool = some (GPart.functionCall "badTool" []) ∧
    (callAgent callFloatTool gwBadTool "x").outcome =
      Outcome.err ("unhandled function name: badTool") ∧
    (callAgent callFloatTool gwBadTool "x").outcome ≠
      Outcome.err "message cycles exceeded" := by
  decide

/-- C1 (amended): a `callAgent` invocation performs at most 25 inspection
cycles and always terminates (the embedding is total by structural recursion
on the 25-cycle budget, mirroring the bounded `for` loop); and whenever every
gateway reply is a well-formed non-text reply whose tool requests the handler
answers successfully — so that no cycle aborts early with a tool, transport
or indexing failure and no cycle returns text — the budget is exhausted and
the call returns the cycle-limit error `message cycles exceeded`. -/
theorem c1_cycle_budget (toolCall : FunctionCall → Outcome) (gw : Nat → GWReply)
    (message : String) :
    (callAgent toolCall gw message).inspections ≤ 25 ∧
    ((∀ n, GoodReply toolCall (gw n)) →
      (callAgent toolCall gw message).outcome = Outcome.err "message cycles exceeded") := by
  constructor
  · cases h0 : gw 0 with
    | error e => simp [callAgent, h0]
    | ok resp =>
      have := callAgentLoop_inspections_le toolCall gw 25 resp 1
      simp [callAgent, h0]
      omega
  · intro hgw
    cases h0 : gw 0 with
    | error e =>
      obtain ⟨r, hr, _⟩ := hgw 0
      rw [h0] at hr
      exact absurd hr (by simp)
    | ok resp =>
      have hg : GoodResp toolCall resp := by
        obtain ⟨r, hr, hgood⟩ := hgw 0
        rw [h0] at hr
        have : resp = r := by exact Except.ok.inj hr
        rw [this]
        exact hgood
      have := callAgentLoop_exhausts toolCall gw hgw 25 resp 1 hg
      simp [callAgent, h0]
      exact this

/-- C1, witness: on the gateway whose every reply is an unhandled part kind,
the amended theorem yields at most 25 inspections and the cycle-limit
error. -/
theorem c1_cycle_budget_witness :
    (callAgent callFloatTool gwOther "x").inspections ≤ 25 ∧
    (callAgent callFloatTool gwOther "x").outcome = Outcome.err "message cycles exceeded" :=
  ⟨(c1_cycle_budget callFloatTool gwOther "x").1,
   (c1_cycle_budget callFloatTool gwOther "x").2
     (fun _ => ⟨respOther, rfl,
       ⟨GPart.other, rfl, fun s h => GPart.noConfusion h,
        fun n a h => GPart.noConfusion h⟩⟩)⟩

/-- C8: when the inspected reply's first content unit is neither a
tool-invocation request nor text, the cycle performs no Model Gateway turn
and no tool invocation yet still consumes one unit of budget; since nothing
new is sent, the same reply is inspected every remaining cycle, so the whole
budget is burned with zero turns and zero tool calls and the run ends in the
cycle-limit error `message cycles exceeded`. -/
theorem c8_unrecognized_reply_wastes_cycles (toolCall : FunctionCall → Outcome)
    (gw : Nat → GWReply) (message : String) (resp : GenResp)
    (h : firstPart resp = some GPart.other) :
    (∀ fuel k, callAgentLoop toolCall gw resp k fuel =
      ⟨Outcome.err "message cycles exceeded", 0, fuel, 0⟩) ∧
    (gw 0 = Except.ok resp →
      callAgent toolCall gw message = ⟨Outcome.err "message cycles exceeded", 1, 25, 0⟩) := by
  have hloop : ∀ fuel k, callAgentLoop toolCall gw resp k fuel =
      ⟨Outcome.err "message cycles exceeded", 0, fuel, 0⟩ := by
    intro fuel
    induction fuel with
    | zero => intro k; simp [callAgentLoop]
    | succ n ih => intro k; simp [callAgentLoop, h, ih k]
  exact ⟨hloop, fun h0 => by simp [callAgent, h0, hloop 25 1]⟩

/-- C8, witness: the concrete unhandled-kind reply burns all 25 cycles with
no turns and no tool calls. -/
theorem c8_unrecognized_reply_wastes_cycles_witness :
    callAgentLoop callFloatTool gwOther respOther 1 25 =
      ⟨Outcome.err "message cycles exceeded", 0, 25, 0⟩ ∧
    callAgent callFloatTool gwOther "x" =
      ⟨Outcome.err "message cycles exceeded", 1, 25, 0⟩ :=
  ⟨(c8_unrecognized_reply_wastes_cycles callFloatTool gwOther "x" respOther rfl).1 25 1,
   (c8_unrecognized_reply_wastes_cycles callFloatTool gwOther "x" respOther rfl).2 rfl⟩

/-- C9: `newSession` starts the receiver's session from the package-global
float agent's model (`agent.session = agentFloat.model.StartChat()`), so any
agent whose model differs from the global float agent's gets a session bound
to the float agent's model, not to its own. -/
theorem c9_new_session_uses_global_model (agentFloat ag : Agent)
    (h : ag.model ≠ agentFloat.model) :
    (newSession agentFloat ag).session = some (startChat agentFloat.model) ∧
    (newSession agentFloat ag).session ≠ some (startChat ag.model) := by
  constructor
  · rfl
  · simp [newSession, startChat]
    exact fun hEq => h hEq.symm

/-- C9, witness: an agent on model 1 has its session started from the global
float agent's model 0. -/
theorem c9_new_session_uses_global_model_witness :
    (newSession agentA agentB).session = some (startChat agentA.model) ∧
    (newSession agentA agentB).session ≠ some (startChat agentB.model) :=
  c9_new_session_uses_global_model agentA agentB (by decide)

/-- C10: when a gateway reply has an empty candidate list or an empty
content-parts list in its first candidate, `callAgent` hits the unguarded
`resp.Candidates[0].Content.Parts[0]` indexing and panics instead of
returning an error, and the service endpoint handling such a request crashes
instead of producing any HTTP response (in particular no 400). -/
theorem c10_empty_reply_panics (toolCall : FunctionCall → Outcome) (gw : Nat → GWReply)
    (message : String) (resp : GenResp)
    (h0 : gw 0 = Except.ok resp)
    (h : resp.candidates = [] ∨
      ∃ c cs, resp.candidates = c :: cs ∧ c.content.parts = []) :
    (callAgent toolCall gw message).outcome = Outcome.panicked ∧
    handleAgentRequest toolCall gw ⟨"POST", "application/json", Except.ok ⟨message⟩⟩ =
      HandlerResult.crashedPanic := by
  have hfp : firstPart resp = none := by
    rcases h with h1 | ⟨c, cs, hc, hps⟩
    · simp [firstPart, h1]
    · simp [firstPart, hc, hps]
  have hca : (callAgent toolCall gw message).outcome = Outcome.panicked := by
    simp [callAgent, h0, callAgentLoop_panics toolCall gw resp 1 25 (by decide) hfp]
  refine ⟨hca, ?_⟩
  unfold handleAgentRequest
  rw [if_neg (by simp), if_neg (by simp)]
  simp only []
  rw [hca]

/-- C2: a reply whose first content unit requests a tool absent from the
dispatch table (any name other than `performCalculation` for the float agent,
any name other than `callFloatAgent` for the math agent) makes the in-flight
call abort at once with the error `unhandled function name: <name>`: one tool
lookup, no retry, no fallback tool, and zero further Model Gateway turns
after the failing lookup (the loop performs no more sends; at the
`callAgent` level only the initial send ever happened). -/
theorem c2_unhandled_tool_aborts (env : String → Option String)
    (transport : PostCall → TransportResult) (gw : Nat → GWReply)
    (resp : GenResp) (k fuel : Nat) (name : String) (args : List (String × GoVal))
    (message : String)
    (hfuel : fuel ≠ 0)
    (hpart : firstPart resp = some (GPart.functionCall name args))
    (hfl : name ≠ "performCalculation") (hma : name ≠ "callFloatAgent") :
    callAgentLoop callFloatTool gw resp k fuel =
      ⟨Outcome.err ("unhandled function name: " ++ name), 0, 1, 1⟩ ∧
    callAgentLoop (callMathTool env transport) gw resp k fuel =
      ⟨Outcome.err ("unhandled function name: " ++ name), 0, 1, 1⟩ ∧
    (gw 0 = Except.ok resp →
      callAgent callFloatTool gw message =
        ⟨Outcome.err ("unhandled function name: " ++ name), 1, 1, 1⟩) := by
  have hflv : callFloatTool ⟨name, args⟩ =
      Outcome.err ("unhandled function name: " ++ name) := by
    simp [callFloatTool, firstDeclName, performCalculationTool, hfl]
  have hmav : callMathTool env transport ⟨name, args⟩ =
      Outcome.err ("unhandled function name: " ++ name) := by
    simp [callMathTool, firstDeclName, callFloatAgentTool, hma]
  have key : ∀ tc : FunctionCall → Outcome,
      tc ⟨name, args⟩ = Outcome.err ("unhandled function name: " ++ name) →
      ∀ k2 f, f ≠ 0 → callAgentLoop tc gw resp k2 f =
        ⟨Outcome.err ("unhandled function name: " ++ name), 0, 1, 1⟩ := by
    intro tc htc k2 f hf
    cases f with
    | zero => exact absurd rfl hf
    | succ m => simp [callAgentLoop, hpart, htc]
  refine ⟨key _ hflv k fuel hfuel, key _ hmav k fuel hfuel, fun h0 => ?_⟩
  simp [callAgent, h0, key _ hflv 1 25 (by decide)]

/-- C2, witness: the concrete reply requesting the undeclared `badTool`
aborts both agents' loops at once with the protocol error and no further
turns. -/
theorem c2_unhandled_tool_aborts_witness :
    callAgentLoop callFloatTool gwBadTool respBadTool 1 25 =
      ⟨Outcome.err ("unhandled function name: " ++ "badTool"), 0, 1, 1⟩ ∧
    callAgentLoop (callMathTool envLH trOk) gwBadTool respBadTool 1 25 =
      ⟨Outcome.err ("unhandled function name: " ++ "badTool"), 0, 1, 1⟩ ∧
    callAgent callFloatTool gwBadTool "x" =
      ⟨Outcome.err ("unhandled function name: " ++ "badTool"), 1, 1, 1⟩ := by
  have h := c2_unhandled_tool_aborts envLH trOk gwBadTool respBadTool 1 25 "badTool" [] "x"
    (by decide) rfl (by decide) (by decide)
  exact ⟨h.1, h.2.1, h.2.2 rfl⟩

/-- C4, counterexample to the claim as stated: a float-tool invocation with
no arguments makes `callFloatTool` hit `log.Fatalln("Missing value one")`,
which terminates the whole process (outcome `fatal`), not a typed error
return aborting only the in-flight call. -/
theorem c4_counterexample :
    callFloatTool ⟨"performCalculation", []⟩ = Outcome.fatal "Missing value one" ∧
    isErrReturn (callFloatTool ⟨"performCalculation", []⟩) = false := by
  decide

/-- C4 (amended): a tool-invocation request omitting the math tool's required
`message` argument makes `callMathTool` return the typed failure
`error missing message`, which aborts only the in-flight call; but a request
omitting `valueOne`, `valueTwo` or `operator` for the float tool makes
`callFloatTool` abort the whole process via `log.Fatalln` (outcome `fatal`
with the respective `Missing value ...` message), not return a typed
failure. -/
theorem c4_missing_argument (env : String → Option String)
    (transport : PostCall → TransportResult) (args : List (String × GoVal)) :
    (lookupArg args "message" = none →
      callMathTool env transport ⟨"callFloatAgent", args⟩ =
        Outcome.err "error missing message") ∧
    (lookupArg args "valueOne" = none →
      callFloatTool ⟨"performCalculation", args⟩ = Outcome.fatal "Missing value one") ∧
    (∀ v, lookupArg args "valueOne" = some v → lookupArg args "valueTwo" = none →
      callFloatTool ⟨"performCalculation", args⟩ = Outcome.fatal "Missing value two") ∧
    (∀ v w, lookupArg args "valueOne" = some v → lookupArg args "valueTwo" = some w →
      lookupArg args "operator" = none →
      callFloatTool ⟨"performCalculation", args⟩ =
        Outcome.fatal "Missing value operator") := by
  refine ⟨?_, ?_, ?_, ?_⟩
  · intro h
    simp [callMathTool, firstDeclName, callFloatAgentTool, h]
  · intro h
    simp [callFloatTool, firstDeclName, performCalculationTool, h]
  · intro v h1 h2
    simp [callFloatTool, firstDeclName, performCalculationTool, h1, h2]
  · intro v w h1 h2 h3
    simp [callFloatTool, firstDeclName, performCalculationTool, h1, h2, h3]

/-- C4, witness: concrete invocations with each required argument absent. -/
theorem c4_missing_argument_witness :
    callMathTool envLH trOk ⟨"callFloatAgent", []⟩ = Outcome.err "error missing message" ∧
    callFloatTool ⟨"performCalculation", []⟩ = Outcome.fatal "Missing value one" ∧
    callFloatTool ⟨"performCalculation", [("valueOne", GoVal.str "1")]⟩ =
      Outcome.fatal "Missing value two" ∧
    callFloatTool ⟨"performCalculation", [("valueOne", GoVal.str "1"), ("valueTwo", GoVal.str "2")]⟩ =
      Outcome.fatal "Missing value operator" :=
  ⟨(c4_missing_argument envLH trOk []).1 rfl,
   (c4_missing_argument envLH trOk []).2.1 rfl,
   (c4_missing_argument envLH trOk [("valueOne", GoVal.str "1")]).2.2.1
     (GoVal.str "1") rfl rfl,
   (c4_missing_argument envLH trOk
       [("valueOne", GoVal.str "1"), ("valueTwo", GoVal.str "2")]).2.2.2
     (GoVal.str "1") (GoVal.str "2") rfl rfl rfl⟩

/-- C5: for every operator string outside `{+, -, *, /, %}` and any operand
strings, `performCalculation` neither fails nor propagates an error: the
switch's default case leaves the result at its zero value and the formatted
return value is the placeholder string `0`. -/
theorem c5_unknown_operator_zero (valueOne valueTwo operator : String)
    (h : operator ∉ ["+", "-", "*", "/", "%"]) :
    performCalculation valueOne valueTwo operator = "0" := by
  simp only [List.mem_cons, List.not_mem_nil, or_false, not_or] at h
  obtain ⟨h1, h2, h3, h4, h5⟩ := h
  have hz : formatFloat 0 = "0" := by decide
  simp [performCalculation, h1, h2, h3, h4, h5, hz]

/-- C5, witness: the unrecognized operator `&` yields the placeholder `0`. -/
theorem c5_unknown_operator_zero_witness :
    ("&" ∉ ["+", "-", "*", "/", "%"]) ∧ performCalculation "2" "3" "&" = "0" :=
  ⟨by decide, c5_unknown_operator_zero "2" "3" "&" (by decide)⟩

/-- C6: every failure mode of the endpoint — non-POST method, missing or
wrong Content-Type, body that fails to decode, and a dispatch-loop error —
yields the one identical generic response `400` with body `Bad Request`
(so the caller cannot tell which failure occurred), while a well-formed POST
whose loop terminates with text yields `200`, the `application/json`
Content-Type header, and a JSON body whose `content` field holds the
answer. -/
theorem c6_endpoint_status_mapping (toolCall : FunctionCall → Outcome)
    (gw : Nat → GWReply) (req : HttpRequest) :
    (req.method ≠ "POST" →
      handleAgentRequest toolCall gw req =
        HandlerResult.response 400 none (BodyContent.text "Bad Request")) ∧
    (req.contentType ≠ "application/json" →
      handleAgentRequest toolCall gw req =
        HandlerResult.response 400 none (BodyContent.text "Bad Request")) ∧
    (∀ e, req.body = Except.error e →
      handleAgentRequest toolCall gw req =
        HandlerResult.response 400 none (BodyContent.text "Bad Request")) ∧
    (∀ r e, req.body = Except.ok r →
      (callAgent toolCall gw r.input).outcome = Outcome.err e →
      handleAgentRequest toolCall gw req =
        HandlerResult.response 400 none (BodyContent.text "Bad Request")) ∧
    (∀ r s, req.method = "POST" → req.contentType = "application/json" →
      req.body = Except.ok r →
      (callAgent toolCall gw r.input).outcome = Outcome.ok s →
      handleAgentRequest toolCall gw req =
        HandlerResult.response 200 (some "application/json") (BodyContent.json ⟨s⟩)) := by
  refine ⟨?_, ?_, ?_, ?_, ?_⟩
  · intro h
    simp [handleAgentRequest, h]
  · intro h
    unfold handleAgentRequest
    split_ifs with h1 h2
    · rfl
    · rfl
    · exact absurd (Or.inr h) h2
  · intro e he
    unfold handleAgentRequest
    split_ifs with h1 h2
    · rfl
    · rfl
    · rw [he]
  · intro r e hb ho
    unfold handleAgentRequest
    split_ifs with h1 h2
    · rfl
    · rfl
    · rw [hb]
      simp [ho]
  · intro r s hm hct hb ho
    unfold handleAgentRequest
    split_ifs with h1 h2
    · exact absurd hm h1
    · rcases h2 with h2a | h2b
      · rw [hct] at h2a
        exact absurd h2a (by decide)
      · exact absurd hct h2b
    · rw [hb]
      simp [ho]

/-- C6, witness: a GET request gets the generic `400`; a well-formed POST
against a gateway that answers with text gets `200` and the JSON content. -/
theorem c6_endpoint_status_mapping_witness :
    handleAgentRequest callFloatTool gwText reqGet =
      HandlerResult.response 400 none (BodyContent.text "Bad Request") ∧
    handleAgentRequest callFloatTool gwText reqPost =
      HandlerResult.response 200 (some "application/json") (BodyContent.json ⟨"2"⟩) := by
  refine ⟨(c6_endpoint_status_mapping callFloatTool gwText reqGet).1 (by decide), ?_⟩
  exact (c6_endpoint_status_mapping callFloatTool gwText reqPost).2.2.2.2
    ⟨"1+1"⟩ "2" rfl rfl rfl (by decide)

/-- C7, counterexample to the claim as stated: the earlier-iteration proxy
`floatAgentTool` builds its one POST against `http://<host>:<port>` with no
`/agent` path, so the claim's "to the configured remote endpoint's /agent
path" fails for it. -/
theorem c7_counterexample :
    (floatAgentTool envLH trOk "msg").2 =
      [⟨"http://localhost:8080", "application/json", ⟨"msg"⟩⟩] ∧
    ("http://localhost:8080" : String) ≠ "http://localhost:8080/agent" := by
  decide

/-- C7 (amended): with the endpoint configured in the environment, the
current proxy `callFloatAgent` performs exactly one POST, to the remote
endpoint's `/agent` path, with Content-Type `application/json` and the
serialized Wire Request `{input: message}`; a decodable reply returns the
Wire Response's `content` field as the tool result, and any transport or
decode error is returned as the tool failure, with no retry (still exactly
one POST).  The earlier-iteration `floatAgentTool` behaves identically
except that its single POST goes to the endpoint root, with no `/agent`
path. -/
theorem c7_remote_proxy (env : String → Option String)
    (transport : PostCall → TransportResult) (message host port : String)
    (hh : env "FLOAT_AGENT_HOSTNAME" = some host)
    (hp : env "FLOAT_AGENT_PORT" = some port) :
    (callFloatAgent env transport message).2 = [wirePost host port message] ∧
    (floatAgentTool env transport message).2 = [wirePostRoot host port message] ∧
    (∀ r, transport (wirePost host port message) = TransportResult.reply (Except.ok r) →
      (callFloatAgent env transport message).1 = Outcome.ok r.content) ∧
    (∀ e, transport (wirePost host port message) = TransportResult.transportErr e →
      (callFloatAgent env transport message).1 = Outcome.err e) ∧
    (∀ e, transport (wirePost host port message) = TransportResult.reply (Except.error e) →
      (callFloatAgent env transport message).1 = Outcome.err e) := by
  have e1 : ∀ res, transport (wirePost host port message) = res →
      callFloatAgent env transport message =
        (match res with
          | TransportResult.transportErr e => (Outcome.err e, [wirePost host port message])
          | TransportResult.reply (Except.error e) => (Outcome.err e, [wirePost host port message])
          | TransportResult.reply (Except.ok r) =>
            (Outcome.ok r.content, [wirePost host port message])) := by
    intro res hres
    have hres2 : transport ⟨"http://" ++ host ++ ":" ++ port ++ "/agent",
        "application/json", ⟨message⟩⟩ = res := hres
    simp [callFloatAgent, hh, hp, hres2, wirePost]
  have e2 : ∀ res, transport (wirePostRoot host port message) = res →
      floatAgentTool env transport message =
        (match res with
          | TransportResult.transportErr e => (Outcome.err e, [wirePostRoot host port message])
          | TransportResult.reply (Except.error e) =>
            (Outcome.err e, [wirePostRoot host port message])
          | TransportResult.reply (Except.ok r) =>
            (Outcome.ok r.content, [wirePostRoot host port message])) := by
    intro res hres
    have hres2 : transport ⟨"http://" ++ host ++ ":" ++ port,
        "application/json", ⟨message⟩⟩ = res := hres
    simp [floatAgentTool, hh, hp, hres2, wirePostRoot]
  refine ⟨?_, ?_, ?_, ?_, ?_⟩
  · cases htr : transport (wirePost host port message) with
    | transportErr e => rw [e1 _ htr]
    | reply d =>
      cases d with
      | error e => rw [e1 _ htr]
      | ok r => rw [e1 _ htr]
  · cases htr : transport (wirePostRoot host port message) with
    | transportErr e => rw [e2 _ htr]
    | reply d =>
      cases d with
      | error e => rw [e2 _ htr]
      | ok r => rw [e2 _ htr]
  · intro r htr
    rw [e1 _ htr]
  · intro e htr
    rw [e1 _ htr]
  · intro e htr
    rw [e1 _ htr]

/-- C7, witness: with the concrete environment and an always-decodable
transport, `callFloatAgent` posts once to the `/agent` URL and returns the
reply's content. -/
theorem c7_remote_proxy_witness :
    (callFloatAgent envLH trOk "msg").2 = [wirePost "localhost" "8080" "msg"] ∧
    (callFloatAgent envLH trOk "msg").1 = Outcome.ok "42" := by
  have h := c7_remote_proxy envLH trOk "msg" "localhost" "8080" rfl rfl
  exact ⟨h.1, h.2.2.1 ⟨"42"⟩ rfl⟩

/-- C10, witness: the concrete empty-candidates reply makes the call panic
and the endpoint crash without any HTTP response. -/
theorem c10_empty_reply_panics_witness :
    (callAgent callFloatTool gwEmpty "x").outcome = Outcome.panicked ∧
    handleAgentRequest callFloatTool gwEmpty ⟨"POST", "application/json", Except.ok ⟨"x"⟩⟩ =
      HandlerResult.crashedPanic :=
  c10_empty_reply_panics callFloatTool gwEmpty "x" respEmpty rfl (Or.inl rfl)
